import Mathlib

/-!
Shallow embedding of parts of the openedx ecommerce platform, and proofs
about them.  Each definition is translated from the Python source:

* `ecommerce/programs/conditions.py` — `ProgramCourseRunSeatsCondition`
  (`is_satisfied`, `can_apply_condition`, `get_applicable_lines`,
  `consume_items`);
* `ecommerce/extensions/iap/api/v1/views.py` —
  `MobileCoursePurchaseExecutionView.post`;
* `ecommerce/extensions/payment/models.py` — `SDNFallbackMetadata`
  state swapping and the `PaymentProcessorResponse` audit model;
* `ecommerce/extensions/checkout/signals.py` — `track_completed_order`
  and `send_course_purchase_email`.

External HTTP services (discovery, enrollment, credit providers, the
notification backend) are modelled as oracle arguments: the result the
call would have produced, `Except`-valued where the call can raise.
-/

namespace Ecommerce

instance {ε α : Type} [DecidableEq ε] [DecidableEq α] :
    DecidableEq (Except ε α) := fun a b =>
  match a, b with
  | .ok x, .ok y =>
    if h : x = y then isTrue (by rw [h]) else isFalse (by simp [h])
  | .error x, .error y =>
    if h : x = y then isTrue (by rw [h]) else isFalse (by simp [h])
  | .ok _, .error _ => isFalse (fun hcon => Except.noConfusion hcon)
  | .error _, .ok _ => isFalse (fun hcon => Except.noConfusion hcon)

/-- Kinds of Python exceptions relevant to the embedded code paths.
`httpNotFound` is `slumber.exceptions.HttpNotFoundError`, `slumberBase`
is `slumber.exceptions.SlumberBaseException`, `reqTimeout` is
`requests.Timeout`; `other` stands for any exception outside those
classes (e.g. a raw `requests.ConnectionError` or a programming error). -/
inductive ExnKind where
  | httpNotFound
  | slumberBase
  | reqTimeout
  | other
  deriving DecidableEq, Repr

/-- The exception classes caught by the `try/except` around `get_program`
in `ProgramCourseRunSeatsCondition.is_satisfied` (conditions.py line 74):
`(HttpNotFoundError, SlumberBaseException, requests.Timeout)`. -/
def caughtByIsSatisfied : ExnKind → Bool
  | .httpNotFound => true
  | .slumberBase => true
  | .reqTimeout => true
  | .other => false

/-- Python `needle in haystack` on strings: substring containment. -/
def pyInStr (needle haystack : String) : Bool :=
  decide (needle.toList.IsInfix haystack.toList)

/-- A seat of a course run as returned by the discovery service:
`{sku, type}`. -/
structure Seat where
  sku : String
  type : String
  deriving DecidableEq, Repr

/-- A course run of a program course: carries its seats. -/
structure CourseRun where
  seats : List Seat
  deriving DecidableEq, Repr

/-- A course of a program: `{key, course_runs}`. -/
structure Course where
  key : String
  course_runs : List CourseRun
  deriving DecidableEq, Repr

/-- A program definition as returned by the discovery service:
`{applicable_seat_types, courses}`. -/
structure Program where
  applicable_seat_types : List String
  courses : List Course
  deriving DecidableEq, Repr

/-- An enrollment record returned by the enrollment API:
`{course_details: {course_id}, mode}` (flattened). -/
structure Enrollment where
  course_id : String
  mode : String
  deriving DecidableEq, Repr

/-- A basket line as far as `is_satisfied` needs it: its stock record's
`partner_sku`. -/
structure BasketLine where
  partner_sku : String
  deriving DecidableEq, Repr

/-- The basket as far as `is_satisfied` needs it: its lines
(`basket.all_lines()`; `basket.is_empty` is `lines = []`). -/
structure Basket where
  lines : List BasketLine
  deriving DecidableEq, Repr

/-- Embeds `set([line.stockrecord.partner_sku for line in basket.all_lines()])`
(conditions.py line 71). -/
def basketSkus (b : Basket) : Finset String :=
  (b.lines.map BasketLine.partner_sku).toFinset

/-- The per-course SKU collection of `is_satisfied` (conditions.py
lines 92–94): the union over the course's runs of
`set([seat['sku'] for seat in course_run['seats']
      if seat['type'] in applicable_seat_types])`. -/
def courseSkus (applicable_seat_types : List String) (c : Course) : Finset String :=
  ((c.course_runs.map fun run =>
      run.seats.filterMap fun seat =>
        if seat.type ∈ applicable_seat_types then some seat.sku else none).flatten).toFinset

/-- The enrollment test of `is_satisfied` (conditions.py lines 82–83):
`any(course['key'] in enrollment['course_details']['course_id'] and
     enrollment['mode'] in applicable_seat_types
     for enrollment in enrollments)`.
Note Python's `in` on strings is substring containment. -/
def coveredByEnrollment (enrollments : List Enrollment)
    (applicable_seat_types : List String) (c : Course) : Bool :=
  enrollments.any fun e =>
    pyInStr c.key e.course_id && decide (e.mode ∈ applicable_seat_types)

/-- The `for course in program['courses']` loop of `is_satisfied`
(conditions.py lines 80–109), with `basket_skus` threaded through as the
loop does. -/
def satisfiedCourses (basket_skus : Finset String)
    (applicable_seat_types : List String) (enrollments : List Enrollment) :
    List Course → Bool
  | [] => true
  | c :: rest =>
    if coveredByEnrollment enrollments applicable_seat_types c then
      satisfiedCourses basket_skus applicable_seat_types enrollments rest
    else if basket_skus = ∅ then
      false
    else
      let skus := courseSkus applicable_seat_types c
      let diff := basket_skus \ skus
      if diff = basket_skus then false
      else satisfiedCourses diff applicable_seat_types enrollments rest

/-- Embeds `ProgramCourseRunSeatsCondition.is_satisfied` (conditions.py
lines 56–109).  The two external calls are oracles: `programResult` is
what `self.get_program(...)` would produce (a `Program` or a raised
exception), `enrollmentsResult` is what
`enrollment_api_client.enrollment.get(...)` would produce.  Only the
program fetch is wrapped in `try/except`, and only for the three classes
of `caughtByIsSatisfied`; an exception anywhere else propagates
(`Except.error`). -/
def is_satisfied (basket : Basket)
    (programResult : Except ExnKind Program)
    (enrollmentsResult : Except ExnKind (List Enrollment)) :
    Except ExnKind Bool :=
  if basket.lines.isEmpty then
    .ok false
  else
    match programResult with
    | .error e => if caughtByIsSatisfied e then .ok false else .error e
    | .ok program =>
      match enrollmentsResult with
      | .error e => .error e
      | .ok enrollments =>
        .ok (satisfiedCourses (basketSkus basket) program.applicable_seat_types
              enrollments program.courses)

/-- Embeds `get_applicable_skus` (conditions.py lines 43–54): the SKUs of all
seats of all runs of all program courses whose type is applicable. -/
def get_applicable_skus (program : Program) : Finset String :=
  program.courses.foldl
    (fun acc c => acc ∪ courseSkus program.applicable_seat_types c) ∅

/-- A basket line as `can_apply_condition` / `get_applicable_lines` /
`consume_items` see it.  `has_stockrecord` is the truthiness of
`line.stockrecord_id`; `is_discountable` is
`product.get_is_discountable()`; `unit_price` is the value
`oscar_utils.unit_price(offer, line)` would compute for this line (the
pricing strategy is outside this repository), falsy exactly when 0;
`affected_quantity` is the oscar line's count of units already consumed
by offers (`quantity_without_discount = quantity - affected_quantity`). -/
structure Line where
  partner_sku : String
  has_stockrecord : Bool
  is_discountable : Bool
  unit_price : ℚ
  quantity : Nat
  affected_quantity : Nat
  deriving DecidableEq, Repr

/-- Oscar's `line.quantity_without_discount`. -/
def Line.quantity_without_discount (l : Line) : Nat :=
  l.quantity - l.affected_quantity

/-- Oscar's `line.consume(quantity)`: increases the affected (consumed)
quantity by at most the available undiscounted quantity. -/
def Line.consume (l : Line) (quantity : Nat) : Line :=
  { l with affected_quantity :=
      l.affected_quantity + min quantity l.quantity_without_discount }

/-- Embeds `ProgramCourseRunSeatsCondition.can_apply_condition` (conditions.py
lines 111–118).  `applicable_skus` is the result the
`get_applicable_skus` call would return for the line's site. -/
def can_apply_condition (applicable_skus : Finset String) (line : Line) : Bool :=
  if !line.has_stockrecord then false
  else decide (line.partner_sku ∈ applicable_skus) && line.is_discountable

/-- The descending comparison used by
`sorted(line_tuples, reverse=True, key=operator.itemgetter(0))`:
`p` may come before `q` iff `q`'s price is ≤ `p`'s. -/
def priceDesc (p q : ℚ × Line) : Prop := q.1 ≤ p.1

/-- The ascending comparison of `sorted(line_tuples, key=...)` with
`reverse=False`. -/
def priceAsc (p q : ℚ × Line) : Prop := p.1 ≤ q.1

instance : DecidableRel priceDesc := fun p q =>
  inferInstanceAs (Decidable (q.1 ≤ p.1))

instance : DecidableRel priceAsc := fun p q =>
  inferInstanceAs (Decidable (p.1 ≤ q.1))

instance : IsTotal (ℚ × Line) priceDesc := ⟨fun a b => le_total b.1 a.1⟩

instance : IsTrans (ℚ × Line) priceDesc :=
  ⟨fun _ _ _ h1 h2 => le_trans h2 h1⟩

/-- Embeds `ProgramCourseRunSeatsCondition.get_applicable_lines` (conditions.py
lines 120–132).  The loop appends `(price, line)` for each line passing
`can_apply_condition` whose computed unit price is truthy (non-zero);
Python's stable `sorted` with `reverse=most_expensive_first` is
insertion sort under the corresponding comparison. -/
def get_applicable_lines (applicable_skus : Finset String)
    (basket_lines : List Line) (most_expensive_first : Bool := true) :
    List (ℚ × Line) :=
  let line_tuples := basket_lines.filterMap fun line =>
    if !can_apply_condition applicable_skus line then none
    else if line.unit_price = 0 then none
    else some (line.unit_price, line)
  if most_expensive_first then line_tuples.insertionSort priceDesc
  else line_tuples.insertionSort priceAsc

/-- Embeds `ProgramCourseRunSeatsCondition.consume_items` (conditions.py
lines 134–147): for each affected `(line, discount, qty)` tuple, the
line consumes `min(line.quantity_without_discount, 1)`; the tuple's
discount and quantity components are ignored (`for line, __, __ in ...`).
Python mutates the lines in place; here the updated lines are returned. -/
def consume_items (affected_lines : List (Line × ℚ × Nat)) : List Line :=
  affected_lines.map fun t =>
    t.1.consume (min t.1.quantity_without_discount 1)

/-! ### `MobileCoursePurchaseExecutionView.post`
(ecommerce/extensions/iap/api/v1/views.py lines 140–189) -/

/-- Outcome of `self._get_basket(request, basket_id)` as seen by `post`:
success, `ObjectDoesNotExist`, or any other exception (the bare
`except`). -/
inductive BasketFetch where
  | ok (b : Basket)
  | objectDoesNotExist
  | otherExn
  deriving DecidableEq, Repr

/-- Outcome of `self.handle_payment(receipt, basket)` as seen by `post`:
success, `RedundantPaymentNotificationError`, `PaymentError`, or any
other exception (caught by the outer bare `except`). -/
inductive PaymentResult where
  | ok
  | redundantPaymentExn
  | paymentErrorExn
  | otherExn
  deriving DecidableEq, Repr

/-- An order as `post` needs it. -/
structure Order where
  id : Nat
  deriving DecidableEq, Repr

/-- Outcome of `self.create_order(request, basket)`. -/
inductive CreateOrderResult where
  | ok (o : Order)
  | exn
  deriving DecidableEq, Repr

/-- Outcome of `self.handle_post_order(order)`. -/
inductive PostOrderResult where
  | ok
  | exn
  deriving DecidableEq, Repr

/-- What an attempt of `post` produced: the HTTP status of the
`JsonResponse`, the error message if any, whether control reached
`self.create_order`, and whether an order was created. -/
structure IapResponse where
  status : Nat
  error : Option String
  createOrderReached : Bool
  orderCreated : Bool
  deriving DecidableEq, Repr

/-- Embeds `MobileCoursePurchaseExecutionView.post` (views.py lines 140–189).
The stage outcomes (`basketFetch`, `payment`, `orderResult`,
`postOrder`) are oracles for the calls the view makes; the definition
reproduces the view's control flow: each failure returns the
corresponding `JsonResponse` without running the later stages. -/
def MobileCoursePurchaseExecutionView_post (basket_id : Option Nat)
    (basketFetch : BasketFetch) (payment : PaymentResult)
    (orderResult : CreateOrderResult) (postOrder : PostOrderResult) :
    IapResponse :=
  match basket_id with
  | none => ⟨400, some "Basket id is not provided", false, false⟩
  | some bid =>
    match basketFetch with
    | .objectDoesNotExist =>
      ⟨400, some ("Basket [" ++ toString bid ++ "] not found."), false, false⟩
    | .otherExn =>
      ⟨400, some "An unexpected exception occurred while obtaining basket.",
        false, false⟩
    | .ok _ =>
      match payment with
      | .redundantPaymentExn =>
        ⟨409, some "The course has already been paid for on this device by the associated Apple ID.",
          false, false⟩
      | .paymentErrorExn =>
        ⟨400, some "An error occurred during payment handling.", false, false⟩
      | .otherExn =>
        ⟨400, some "An error occurred during handling payment.", false, false⟩
      | .ok =>
        match orderResult with
        | .exn => ⟨400, some "An error occurred during order creation.", true, false⟩
        | .ok _ =>
          match postOrder with
          | .exn =>
            ⟨200, some "An error occurred during post order operations.", true, true⟩
          | .ok => ⟨200, none, true, true⟩

/-! ### `SDNFallbackMetadata`
(ecommerce/extensions/payment/models.py lines 128–202) -/

/-- The `import_state` choices of `SDNFallbackMetadata`. -/
inductive ImportState where
  | new
  | current
  | discard
  deriving DecidableEq, Repr

/-- A row of the `SDNFallbackMetadata` table (the fields beyond
`import_state` are carried opaquely by `file_checksum`). -/
structure MetadataRow where
  file_checksum : String
  import_state : ImportState
  deriving DecidableEq, Repr

/-- The `SDNFallbackMetadata` table contents. -/
abbrev MetadataTable := List MetadataRow

/-- Number of rows of the table in a given `import_state`. -/
def countState (s : ImportState) (t : MetadataTable) : Nat :=
  (t.filter fun r => decide (r.import_state = s)).length

/-- Embeds `SDNFallbackMetadata._swap_state(import_state)` (models.py
lines 180–202) acting on the table; `.error` is an uncaught exception
(which, inside the surrounding `@atomic`, rolls the transaction back).
`objects.get(import_state=...)`: no row → `DoesNotExist`, caught and
logged (no-op); several rows → `MultipleObjectsReturned`, uncaught.  A
`'Discard'` row is deleted; a `'New'` / `'Current'` row moves to the
next state, with `full_clean()` re-validating the unique constraint on
`import_state` (a duplicate raises `ValidationError`, uncaught).  In the
one-row branch the row found is the only row in `import_state`, so
updating/deleting by state is updating/deleting that row. -/
def swapState (import_state : ImportState) (t : MetadataTable) :
    Except Unit MetadataTable :=
  match t.filter fun r => decide (r.import_state = import_state) with
  | [] => .ok t
  | [_] =>
    if import_state = .discard then
      .ok (t.filter fun x => !decide (x.import_state = .discard))
    else
      let next : ImportState :=
        if import_state = .new then .current else .discard
      if t.any fun x => decide (x.import_state = next) then .error ()
      else .ok (t.map fun x =>
        if x.import_state = import_state then { x with import_state := next }
        else x)
  | _ => .error ()

/-- Embeds `SDNFallbackMetadata.swap_all_states` (models.py lines 154–178):
swaps `'Discard'`, then `'Current'`, then `'New'`, each step propagating
an uncaught exception; afterwards, if more than one row remains,
`objects.get(import_state='Current')` must find exactly one `'Current'`
row (zero raises the logged-and-reraised `DoesNotExist`, several raise
`MultipleObjectsReturned`).  `.error` means the `@atomic` transaction
rolls back and the table keeps its original contents.
`currentRowCheck` is that final `get`, applied to the list of `'Current'`
rows of the post-swap table. -/
def currentRowCheck (t3 : MetadataTable) :
    List MetadataRow → Except Unit MetadataTable
  | [_] => .ok t3
  | _ => .error ()

/-- See `currentRowCheck` above: the three swaps in sequence, each
propagating an uncaught exception, then the `'Current'`-row check when
more than one row remains. -/
def swap_all_states (t : MetadataTable) : Except Unit MetadataTable :=
  Except.bind (swapState .discard t) fun t1 =>
  Except.bind (swapState .current t1) fun t2 =>
  Except.bind (swapState .new t2) fun t3 =>
  if 1 < t3.length then
    currentRowCheck t3 (t3.filter fun r => decide (r.import_state = .current))
  else .ok t3

/-! ### Post-checkout signal handlers
(ecommerce/extensions/checkout/signals.py) -/

/-- A product on an order line, as the two handlers see it.
`credit_provider` is `getattr(product.attr, 'credit_provider', None)`. -/
structure OrderProduct where
  title : String
  is_coupon_product : Bool
  is_enrollment_code_product : Bool
  is_seat_product : Bool
  credit_provider : Option String
  credit_hours : Nat
  deriving DecidableEq, Repr

/-- An order line (`order.lines`). -/
structure OrderLine where
  product : OrderProduct
  partner_sku : String
  line_price_excl_tax : ℚ
  quantity : Nat
  deriving DecidableEq, Repr

/-- An order as the post-checkout handlers see it.  `coupon_voucher_code`
is the voucher code of the first basket discount with a voucher, if
any. -/
structure CompletedOrder where
  number : String
  currency : String
  total_excl_tax : ℚ
  total_discount_incl_tax : ℚ
  lines : List OrderLine
  coupon_voucher_code : Option String
  deriving DecidableEq, Repr

/-- A Segment tracking event as `track_segment_event` would emit it
(the properties relevant to the claims). -/
structure SegmentEvent where
  name : String
  orderId : String
  total : ℚ
  currency : String
  coupon : Option String
  productCount : Nat
  deriving DecidableEq, Repr

/-- Embeds `track_completed_order` (signals.py lines 19–54): returns the events
the handler emits.  The `for` loop returning on the first
coupon/enrollment-code line is `List.any`; otherwise exactly one
`'Order Completed'` event is emitted. -/
def track_completed_order (order : CompletedOrder) : List SegmentEvent :=
  if order.total_excl_tax ≤ 0 then []
  else if order.lines.any fun line =>
      line.product.is_coupon_product || line.product.is_enrollment_code_product then []
  else
    [{ name := "Order Completed"
       orderId := order.number
       total := order.total_excl_tax
       currency := order.currency
       coupon := order.coupon_voucher_code
       productCount := order.lines.length }]

/-- Display metadata returned by `get_credit_provider_details`. -/
structure ProviderData where
  display_name : String
  deriving DecidableEq, Repr

/-- The `CREDIT_RECEIPT` notification `send_notification` would send
(the fields relevant to the claims). -/
structure CreditNotification where
  course_title : String
  credit_hours : Nat
  credit_provider : String
  deriving DecidableEq, Repr

/-- What one run of the email handler did: the notification sent, if
any, and whether the missing-credit-provider error was logged. -/
structure SendOutcome where
  sent : Option CreditNotification
  provider_error_logged : Bool
  deriving DecidableEq, Repr

/-- The body of `send_course_purchase_email` (signals.py lines 59–97),
before the `silence_exceptions` decorator is applied.  `switch_active`
is `waffle.switch_is_active('ENABLE_NOTIFICATIONS')`; `providerFetch` is
what `get_credit_provider_details(...)` would produce (its value, or a
raised exception); `sendResult` is what `send_notification(...)` would
produce.  Only orders with exactly `ORDER_LINE_COUNT = 1` line are
handled; a missing `credit_provider` logs an error and returns; a falsy
`provider_data` skips the send. -/
def send_course_purchase_email_body (switch_active : Bool)
    (order : CompletedOrder)
    (providerFetch : Except ExnKind (Option ProviderData))
    (sendResult : Except ExnKind Unit) : Except ExnKind SendOutcome :=
  if switch_active then
    match order.lines with
    | [line] =>
      match line.product.credit_provider with
      | none => .ok ⟨none, true⟩
      | some _ =>
        if line.product.is_seat_product then
          match providerFetch with
          | .error e => .error e
          | .ok none => .ok ⟨none, false⟩
          | .ok (some provider_data) =>
            match sendResult with
            | .error e => .error e
            | .ok _ =>
              .ok ⟨some { course_title := line.product.title
                          credit_hours := line.product.credit_hours
                          credit_provider := provider_data.display_name },
                   false⟩
        else .ok ⟨none, false⟩
    | _ => .ok ⟨none, false⟩
  else .ok ⟨none, false⟩

/-- Modelled from the spec: the `silence_exceptions` decorator lives in
`ecommerce/extensions/analytics/utils.py`, which is not among the
provided sources; per the spec, each post-order handler is "wrapped so
that an exception in one never prevents the others from running nor
surfaces to the caller as a checkout failure" — the wrapper catches any
exception from the handler, logs it, and returns normally. -/
def silence_exceptions (r : Except ExnKind SendOutcome) : SendOutcome :=
  match r with
  | .ok v => v
  | .error _ => ⟨none, false⟩

/-- Embeds `send_course_purchase_email` (signals.py lines 57–97): the handler
body wrapped in `silence_exceptions`. -/
def send_course_purchase_email (switch_active : Bool)
    (order : CompletedOrder)
    (providerFetch : Except ExnKind (Option ProviderData))
    (sendResult : Except ExnKind Unit) : SendOutcome :=
  silence_exceptions
    (send_course_purchase_email_body switch_active order providerFetch sendResult)

/-! ### `PaymentProcessorResponse`
(ecommerce/extensions/payment/models.py lines 20–34) -/

/-- A row of the `PaymentProcessorResponse` audit table.  `basket` is
the nullable foreign key to `basket.Basket` (`null=True`,
`on_delete=models.SET_NULL`); `response` is the JSON payload, opaque
here; `created` is the auto-set creation timestamp. -/
structure PaymentProcessorResponseRow where
  processor_name : String
  transaction_id : Option String
  basket : Option Nat
  response : String
  created : Nat
  deriving DecidableEq, Repr

/-- The effect of deleting basket `bid` on the `PaymentProcessorResponse`
table, per the foreign key's declared `on_delete=models.SET_NULL` with
`null=True` (models.py lines 25–26): rows referencing the deleted basket
have their reference set to null; no row is deleted or otherwise
changed. -/
def delete_basket_effect_on_responses (bid : Nat)
    (rows : List PaymentProcessorResponseRow) :
    List PaymentProcessorResponseRow :=
  rows.map fun r =>
    if r.basket = some bid then { r with basket := none } else r

/-! ### Specification-side definition for the matching claim, and
concrete fixtures used by the theorems -/

/-- The course loop as the specification words it (§4.1 steps 5–6): for
each course in order, a course covered by a qualifying enrollment is
skipped; otherwise the remaining basket SKUs must be non-empty and must
intersect the course's applicable SKUs, and the matched SKUs are removed
so no SKU may satisfy two courses. -/
def claimLoop (basket_skus : Finset String)
    (applicable_seat_types : List String) (enrollments : List Enrollment) :
    List Course → Bool
  | [] => true
  | c :: rest =>
    if coveredByEnrollment enrollments applicable_seat_types c then
      claimLoop basket_skus applicable_seat_types enrollments rest
    else if basket_skus = ∅ then false
    else if basket_skus ∩ courseSkus applicable_seat_types c = ∅ then false
    else
      claimLoop (basket_skus \ courseSkus applicable_seat_types c)
        applicable_seat_types enrollments rest

/-- The whole eligibility decision as the specification words it
(§4.1 steps 1–6, claim C2). -/
def claimC2_satisfied (basket : Basket) (program : Program)
    (enrollments : List Enrollment) : Bool :=
  if basket.lines = [] then false
  else
    claimLoop (basketSkus basket) program.applicable_seat_types enrollments
      program.courses

/-- Fixture: program course `C1` with a verified seat `S1`. -/
def exCourse1 : Course := ⟨"C1", [⟨[⟨"S1", "verified"⟩]⟩]⟩

/-- Fixture: program course `C2` with a verified seat `S2`. -/
def exCourse2 : Course := ⟨"C2", [⟨[⟨"S2", "verified"⟩]⟩]⟩

/-- Fixture: a second program course that also sells seat `S1`. -/
def exCourse2S1 : Course := ⟨"C2", [⟨[⟨"S1", "verified"⟩]⟩]⟩

/-- Fixture: the two-course program of the spec's matching example. -/
def exProgram : Program := ⟨["verified"], [exCourse1, exCourse2]⟩

/-- Fixture: a two-course program whose courses share the SKU `S1`. -/
def exProgramShared : Program := ⟨["verified"], [exCourse1, exCourse2S1]⟩

/-- Fixture: an applicable, discountable line with a given SKU and
unit price. -/
def exLine (sku : String) (price : ℚ) : Line := ⟨sku, true, true, price, 1, 0⟩

/-- Fixture: an applicable line whose computed unit price is 0 (falsy in
Python). -/
def zeroPriceLine : Line := ⟨"S1", true, true, 0, 1, 0⟩

/-- Fixture: a credit-seat product carrying a `credit_provider`
attribute. -/
def exCreditProduct : OrderProduct :=
  ⟨"Credit Course", false, false, true, some "hogwarts", 3⟩

/-- Fixture: a credit-seat product with no `credit_provider` attribute. -/
def exNoProviderProduct : OrderProduct :=
  ⟨"Credit Course", false, false, true, none, 3⟩

/-- Fixture: a one-line order holding the given product. -/
def exOrderOf (p : OrderProduct) : CompletedOrder :=
  ⟨"EDX-100001", "USD", 100, 0, [⟨p, "SKU-1", 100, 1⟩], none⟩

/-! ## Theorems -/

/-- Removing a course's SKUs changes nothing exactly when the basket has
none of them: the code's `diff == basket_skus` test is the spec's
empty-intersection test. -/
theorem sdiff_eq_self_iff_inter_empty (s c : Finset String) :
    s \ c = s ↔ s ∩ c = ∅ := by
  rw [Finset.sdiff_eq_self_iff_disjoint, Finset.disjoint_iff_inter_eq_empty]

/-- The code's course loop and the spec's wording of it agree. -/
theorem satisfiedCourses_eq_claimLoop (skus : Finset String)
    (types : List String) (enr : List Enrollment) (courses : List Course) :
    satisfiedCourses skus types enr courses = claimLoop skus types enr courses := by
  induction courses generalizing skus with
  | nil => rfl
  | cons c rest ih =>
    simp only [satisfiedCourses, claimLoop]
    by_cases hcov : coveredByEnrollment enr types c
    · simp [hcov, ih]
    · have hiff := sdiff_eq_self_iff_inter_empty skus (courseSkus types c)
      by_cases hemp : skus = ∅
      · simp [hcov, hemp]
      · by_cases hdiff : skus \ courseSkus types c = skus
        · simp [hcov, hemp, hdiff, hiff.mp hdiff]
        · have hint : ¬skus ∩ courseSkus types c = ∅ := fun h => hdiff (hiff.mpr h)
          simp [hcov, hemp, hdiff, hint, ih]

/-- C1 (counterexample): an external-service error raised by the
enrollment lookup is not caught inside `is_satisfied` — a timeout there
propagates to the caller instead of yielding `False` (the enrollment
call at conditions.py line 78 sits outside the `try` of lines 72–75). -/
theorem is_satisfied_enrollment_error_cex :
    is_satisfied ⟨[⟨"sku1"⟩]⟩ (.ok ⟨["verified"], []⟩) (.error .reqTimeout)
        = .error .reqTimeout ∧
    is_satisfied ⟨[⟨"sku1"⟩]⟩ (.ok ⟨["verified"], []⟩) (.error .reqTimeout)
        ≠ .ok false := by
  constructor
  · rfl
  · intro h
    simp [is_satisfied] at h

/-- C1 (amended): `is_satisfied` catches exactly the program/discovery
lookup errors of the classes `HttpNotFoundError`, `SlumberBaseException`
and `requests.Timeout` and returns `False` for them; a program-lookup
error of any other class, and any error from the enrollment lookup,
propagates to the caller. -/
theorem is_satisfied_error_handling (basket : Basket) (e : ExnKind)
    (enr : Except ExnKind (List Enrollment)) (p : Program) :
    (caughtByIsSatisfied e = true →
      is_satisfied basket (.error e) enr = .ok false) ∧
    (caughtByIsSatisfied e = false → basket.lines ≠ [] →
      is_satisfied basket (.error e) enr = .error e) ∧
    (basket.lines ≠ [] →
      is_satisfied basket (.ok p) (.error e) = .error e) := by
  refine ⟨fun hc => ?_, fun hc hne => ?_, fun hne => ?_⟩
  · by_cases hb : basket.lines.isEmpty <;> simp [is_satisfied, hb, hc]
  · have hb : basket.lines.isEmpty = false := by
      simpa [List.isEmpty_iff] using hne
    simp [is_satisfied, hb, hc]
  · have hb : basket.lines.isEmpty = false := by
      simpa [List.isEmpty_iff] using hne
    simp [is_satisfied, hb]

/-- C1 (witness): the amended behavior at concrete inputs — a caught
timeout on the program fetch yields `False`; an uncaught program-fetch
error and an enrollment-fetch error both propagate. -/
theorem is_satisfied_error_handling_witness :
    is_satisfied ⟨[⟨"sku1"⟩]⟩ (.error .reqTimeout) (.ok []) = .ok false ∧
    is_satisfied ⟨[⟨"sku1"⟩]⟩ (.error .other) (.ok []) = .error .other ∧
    is_satisfied ⟨[⟨"sku1"⟩]⟩ (.ok ⟨["verified"], []⟩) (.error .slumberBase)
      = .error .slumberBase := by
  refine ⟨?_, ?_, ?_⟩
  · exact (is_satisfied_error_handling ⟨[⟨"sku1"⟩]⟩ .reqTimeout (.ok [])
      ⟨["verified"], []⟩).1 (by decide)
  · exact (is_satisfied_error_handling ⟨[⟨"sku1"⟩]⟩ .other (.ok [])
      ⟨["verified"], []⟩).2.1 (by decide) (by simp)
  · exact (is_satisfied_error_handling ⟨[⟨"sku1"⟩]⟩ .slumberBase (.ok [])
      ⟨["verified"], []⟩).2.2 (by simp)

/-- C2: with both external fetches succeeding, `is_satisfied` computes
exactly the 1:1 matching the claim describes (empty basket never
satisfied; courses in program order; an unenrolled course must match a
remaining applicable basket SKU or the result is `False`; matched SKUs
leave the working set; `True` only when every course is covered) — and
on the spec's examples: `{S1}` alone does not satisfy the two-course
program, `{S1, S2}` does, and a single SKU cannot satisfy two courses. -/
theorem is_satisfied_matching_spec :
    (∀ (basket : Basket) (program : Program) (enrollments : List Enrollment),
      is_satisfied basket (.ok program) (.ok enrollments)
        = .ok (claimC2_satisfied basket program enrollments)) ∧
    (∀ pr er, is_satisfied ⟨[]⟩ pr er = .ok false) ∧
    is_satisfied ⟨[⟨"S1"⟩]⟩ (.ok exProgram) (.ok []) = .ok false ∧
    is_satisfied ⟨[⟨"S1"⟩, ⟨"S2"⟩]⟩ (.ok exProgram) (.ok []) = .ok true ∧
    is_satisfied ⟨[⟨"S1"⟩]⟩ (.ok exProgramShared) (.ok []) = .ok false := by
  refine ⟨fun basket program enrollments => ?_, fun pr er => rfl, ?_, ?_, ?_⟩
  · by_cases hb : basket.lines = []
    · simp [is_satisfied, claimC2_satisfied, hb]
    · have hb' : basket.lines.isEmpty = false := by simpa [List.isEmpty_iff]
      simp [is_satisfied, claimC2_satisfied, hb, hb',
        satisfiedCourses_eq_claimLoop]
  · decide
  · decide
  · decide

/-- C10: the enrollment check of `is_satisfied` uses Python substring
containment (`course['key'] in enrollment['course_details']['course_id']`):
whenever some enrollment's `course_id` merely contains the course's key
as a substring and its mode is applicable, the course is skipped and no
basket SKU is consumed for it. -/
theorem satisfiedCourses_substring_enrollment_skip (skus : Finset String)
    (types : List String) (enrollments : List Enrollment) (c : Course)
    (rest : List Course)
    (h : ∃ e ∈ enrollments, pyInStr c.key e.course_id = true ∧ e.mode ∈ types) :
    satisfiedCourses skus types enrollments (c :: rest)
      = satisfiedCourses skus types enrollments rest := by
  have hcov : coveredByEnrollment enrollments types c = true := by
    obtain ⟨e, he, h1, h2⟩ := h
    simp only [coveredByEnrollment, List.any_eq_true]
    exact ⟨e, he, by simp [h1, h2]⟩
  simp [satisfiedCourses, hcov]

/-- C10 (witness): the key `"edX+Demo"` differs from the enrolled
`course_id` `"course-v1:edX+Demo+1T2024"` but is contained in it, so the
course is skipped without touching the basket SKUs. -/
theorem satisfiedCourses_substring_enrollment_skip_witness :
    ("edX+Demo" : String) ≠ "course-v1:edX+Demo+1T2024" ∧
    satisfiedCourses {"X"} ["verified"]
        [⟨"course-v1:edX+Demo+1T2024", "verified"⟩]
        [⟨"edX+Demo", [⟨[⟨"SD", "verified"⟩]⟩]⟩]
      = satisfiedCourses {"X"} ["verified"]
        [⟨"course-v1:edX+Demo+1T2024", "verified"⟩] [] := by
  constructor
  · decide
  · exact satisfiedCourses_substring_enrollment_skip {"X"} ["verified"]
      [⟨"course-v1:edX+Demo+1T2024", "verified"⟩]
      ⟨"edX+Demo", [⟨[⟨"SD", "verified"⟩]⟩]⟩ []
      ⟨⟨"course-v1:edX+Demo+1T2024", "verified"⟩, by simp, by decide, by decide⟩

/-- C5 (counterexample): a line to which the condition applies but whose
computed unit price is 0 (falsy in Python) is dropped by
`get_applicable_lines` (`if not price: continue`), so the result is not
"exactly the basket lines for which the condition applies". -/
theorem get_applicable_lines_zero_price_cex :
    can_apply_condition {"S1"} zeroPriceLine = true ∧
    get_applicable_lines {"S1"} [zeroPriceLine] true = [] := by
  constructor
  · decide
  · rfl

/-- C5 (amended): `get_applicable_lines` with `most_expensive_first`
returns exactly the condition-applicable basket lines whose unit price
is non-zero, each paired with its unit price, sorted by price in
descending order; on the spec's example, eligible prices `[10, 25, 15]`
come back ordered `[25, 15, 10]`. -/
theorem get_applicable_lines_sorted_spec :
    (∀ (applicable_skus : Finset String) (basket_lines : List Line),
      List.Sorted priceDesc
          (get_applicable_lines applicable_skus basket_lines true) ∧
      (get_applicable_lines applicable_skus basket_lines true).Perm
        (basket_lines.filterMap fun line =>
          if can_apply_condition applicable_skus line = true ∧
              line.unit_price ≠ 0
          then some (line.unit_price, line) else none)) ∧
    get_applicable_lines {"A", "B", "C"}
        [exLine "A" 10, exLine "B" 25, exLine "C" 15] true
      = [(25, exLine "B" 25), (15, exLine "C" 15), (10, exLine "A" 10)] := by
  have hfun : ∀ applicable_skus : Finset String,
      (fun line : Line =>
        if can_apply_condition applicable_skus line = false then none
        else if line.unit_price = 0 then none
        else some (line.unit_price, line))
      = fun line =>
          if can_apply_condition applicable_skus line = true ∧
              line.unit_price ≠ 0
          then some (line.unit_price, line) else none := by
    intro applicable_skus
    funext line
    by_cases h1 : can_apply_condition applicable_skus line <;>
      by_cases h2 : line.unit_price = 0 <;> simp [h1, h2]
  refine ⟨fun applicable_skus basket_lines => ⟨?_, ?_⟩, ?_⟩
  · simpa [get_applicable_lines] using
      List.sorted_insertionSort priceDesc
        (basket_lines.filterMap fun line =>
          if !can_apply_condition applicable_skus line then none
          else if line.unit_price = 0 then none
          else some (line.unit_price, line))
  · simp only [get_applicable_lines, if_true, Bool.not_eq_true']
    rw [hfun applicable_skus]
    exact List.perm_insertionSort priceDesc _
  · decide

/-- C6: `consume_items` consumes exactly
`min(quantity_without_discount, 1)` units on each affected line — at
most one unit per line per application — and the discount and quantity
components of the affected tuples are ignored entirely. -/
theorem consume_items_spec :
    (∀ affected_lines : List (Line × ℚ × Nat),
      consume_items affected_lines
        = affected_lines.map fun t =>
            { t.1 with affected_quantity :=
                t.1.affected_quantity + min t.1.quantity_without_discount 1 }) ∧
    (∀ (affected_lines : List (Line × ℚ × Nat)) (d : ℚ) (q : Nat),
      consume_items (affected_lines.map fun t => (t.1, d, q))
        = consume_items affected_lines) := by
  have hmap : ∀ t : Line × ℚ × Nat,
      t.1.consume (min t.1.quantity_without_discount 1)
        = { t.1 with affected_quantity :=
              t.1.affected_quantity + min t.1.quantity_without_discount 1 } := by
    intro t
    have hmin : min (min t.1.quantity_without_discount 1)
        t.1.quantity_without_discount = min t.1.quantity_without_discount 1 := by
      omega
    unfold Line.consume
    rw [hmin]
  constructor
  · intro affected_lines
    unfold consume_items
    congr 1
    funext t
    exact hmap t
  · intro affected_lines d q
    simp [consume_items, List.map_map, Function.comp]

/-- C3: when `handle_payment` raises
`RedundantPaymentNotificationError`, `MobileCoursePurchaseExecutionView.post`
returns the 409 conflict response and neither reaches `create_order` nor
creates an order, whatever the later stages would have produced. -/
theorem mobile_post_redundant_conflict (i : Nat) (b : Basket)
    (orderResult : CreateOrderResult) (postOrder : PostOrderResult) :
    MobileCoursePurchaseExecutionView_post (some i) (.ok b)
        .redundantPaymentExn orderResult postOrder
      = ⟨409,
          some "The course has already been paid for on this device by the associated Apple ID.",
          false, false⟩ := rfl

/-- C7: `track_completed_order` emits no event exactly when the order's
total (excl. tax) is zero or negative or some line's product is a coupon
or enrollment-code product; in every other case it emits exactly one
event, named `'Order Completed'`. -/
theorem track_completed_order_spec (order : CompletedOrder) :
    (track_completed_order order = [] ↔
      order.total_excl_tax ≤ 0 ∨ ∃ line ∈ order.lines,
        line.product.is_coupon_product = true ∨
        line.product.is_enrollment_code_product = true) ∧
    (track_completed_order order = [] ∨
      ∃ e, track_completed_order order = [e] ∧ e.name = "Order Completed") := by
  unfold track_completed_order
  by_cases h1 : order.total_excl_tax ≤ 0
  · simp [h1]
  · simp only [h1, if_false]
    by_cases h2 : order.lines.any fun line =>
        line.product.is_coupon_product || line.product.is_enrollment_code_product
    · have hex : ∃ line ∈ order.lines,
          line.product.is_coupon_product = true ∨
          line.product.is_enrollment_code_product = true := by
        simpa [List.any_eq_true] using h2
      simp [h2, hex]
    · have hnex : ¬∃ line ∈ order.lines,
          line.product.is_coupon_product = true ∨
          line.product.is_enrollment_code_product = true := by
        simpa [List.any_eq_true] using h2
      constructor
      · simp [h2, h1, hnex]
      · right
        exact ⟨⟨"Order Completed", order.number, order.total_excl_tax,
          order.currency, order.coupon_voucher_code, order.lines.length⟩,
          by simp [h2], rfl⟩

/-- C8: `send_course_purchase_email` sends a credit receipt only when
the `ENABLE_NOTIFICATIONS` switch is on, the order has exactly one line,
and that line's product carries a `credit_provider` attribute; with the
attribute absent it logs an error and sends nothing; and any exception
the handler body raises (e.g. from the external credit-provider lookup
or the notification send) is silenced by its decorator instead of
surfacing. -/
theorem send_course_purchase_email_spec :
    (∀ (switch_active : Bool) (order : CompletedOrder)
        (providerFetch : Except ExnKind (Option ProviderData))
        (sendResult : Except ExnKind Unit) (n : CreditNotification),
      (send_course_purchase_email switch_active order providerFetch
          sendResult).sent = some n →
      switch_active = true ∧ ∃ line, order.lines = [line] ∧
        line.product.credit_provider.isSome = true) ∧
    (∀ (order : CompletedOrder)
        (providerFetch : Except ExnKind (Option ProviderData))
        (sendResult : Except ExnKind Unit) (line : OrderLine),
      order.lines = [line] → line.product.credit_provider = none →
      send_course_purchase_email true order providerFetch sendResult
        = ⟨none, true⟩) ∧
    (∀ (switch_active : Bool) (order : CompletedOrder)
        (providerFetch : Except ExnKind (Option ProviderData))
        (sendResult : Except ExnKind Unit) (e : ExnKind),
      send_course_purchase_email_body switch_active order providerFetch
          sendResult = .error e →
      send_course_purchase_email switch_active order providerFetch sendResult
        = ⟨none, false⟩) := by
  refine ⟨?_, ?_, ?_⟩
  · intro switch_active order providerFetch sendResult n h
    cases switch_active with
    | false =>
      simp [send_course_purchase_email, send_course_purchase_email_body,
        silence_exceptions] at h
    | true =>
      refine ⟨rfl, ?_⟩
      obtain ⟨num, cur, tot, disc, lines, coup⟩ := order
      cases lines with
      | nil =>
        simp [send_course_purchase_email, send_course_purchase_email_body,
          silence_exceptions] at h
      | cons line rest =>
        cases rest with
        | cons line2 rest2 =>
          simp [send_course_purchase_email, send_course_purchase_email_body,
            silence_exceptions] at h
        | nil =>
          cases hcp : line.product.credit_provider with
          | none =>
            simp [send_course_purchase_email, send_course_purchase_email_body,
              silence_exceptions, hcp] at h
          | some cp => exact ⟨line, rfl, by simp [hcp]⟩
  · intro order providerFetch sendResult line h1 h2
    simp [send_course_purchase_email, send_course_purchase_email_body,
      silence_exceptions, h1, h2]
  · intro switch_active order providerFetch sendResult e h
    simp [send_course_purchase_email, silence_exceptions, h]

/-- C8 (witness): with the switch on and a one-line credit-seat order,
a missing `credit_provider` logs the error and sends nothing, and a
timeout raised by the provider lookup is silenced; the necessary
conditions hold at an order that does get a notification. -/
theorem send_course_purchase_email_spec_witness :
    (true = true ∧ ∃ line, (exOrderOf exCreditProduct).lines = [line] ∧
        line.product.credit_provider.isSome = true) ∧
    send_course_purchase_email true (exOrderOf exNoProviderProduct)
        (.ok none) (.ok ()) = ⟨none, true⟩ ∧
    send_course_purchase_email true (exOrderOf exCreditProduct)
        (.error .reqTimeout) (.ok ()) = ⟨none, false⟩ := by
  refine ⟨?_, ?_, ?_⟩
  · exact send_course_purchase_email_spec.1 true (exOrderOf exCreditProduct)
      (.ok (some ⟨"Hogwarts"⟩)) (.ok ()) ⟨"Credit Course", 3, "Hogwarts"⟩ rfl
  · exact send_course_purchase_email_spec.2.1 (exOrderOf exNoProviderProduct)
      (.ok none) (.ok ()) ⟨exNoProviderProduct, "SKU-1", 100, 1⟩ rfl rfl
  · exact send_course_purchase_email_spec.2.2 true (exOrderOf exCreditProduct)
      (.error .reqTimeout) (.ok ()) .reqTimeout rfl

/-- C9: deleting a basket leaves every `PaymentProcessorResponse` row in
place with `processor_name`, `transaction_id`, `response` and `created`
unchanged; only a `basket` reference equal to the deleted basket is set
to null. -/
theorem payment_response_survives_basket_delete (bid : Nat)
    (rows : List PaymentProcessorResponseRow) :
    (delete_basket_effect_on_responses bid rows).length = rows.length ∧
    ∀ i : Fin rows.length,
      ∃ h : i.val < (delete_basket_effect_on_responses bid rows).length,
        ((delete_basket_effect_on_responses bid rows).get
              ⟨i.val, h⟩).processor_name = (rows.get i).processor_name ∧
        ((delete_basket_effect_on_responses bid rows).get
              ⟨i.val, h⟩).transaction_id = (rows.get i).transaction_id ∧
        ((delete_basket_effect_on_responses bid rows).get
              ⟨i.val, h⟩).response = (rows.get i).response ∧
        ((delete_basket_effect_on_responses bid rows).get
              ⟨i.val, h⟩).created = (rows.get i).created ∧
        ((delete_basket_effect_on_responses bid rows).get ⟨i.val, h⟩).basket
          = if (rows.get i).basket = some bid then none
            else (rows.get i).basket := by
  have hlen : (delete_basket_effect_on_responses bid rows).length
      = rows.length := by
    simp [delete_basket_effect_on_responses]
  refine ⟨hlen, fun i => ?_⟩
  have hlt : i.val < (delete_basket_effect_on_responses bid rows).length := by
    rw [hlen]; exact i.isLt
  refine ⟨hlt, ?_⟩
  have hget : (delete_basket_effect_on_responses bid rows).get ⟨i.val, hlt⟩
      = if (rows.get i).basket = some bid
        then { rows.get i with basket := none } else rows.get i := by
    simp [delete_basket_effect_on_responses, List.get_eq_getElem,
      List.getElem_map]
  rw [hget]
  split_ifs with hb <;> simp

/-! ### Counting lemmas for the SDN metadata table -/

/-- Unfolding `countState` over a cons. -/
theorem countState_cons (s : ImportState) (r : MetadataRow)
    (l : MetadataTable) :
    countState s (r :: l)
      = (if r.import_state = s then 1 else 0) + countState s l := by
  unfold countState
  by_cases h : r.import_state = s <;>
    simp [List.filter_cons, h, Nat.add_comm]

/-- Counting after filtering out one state. -/
theorem countState_filter_not (s' s : ImportState) (t : MetadataTable) :
    countState s (t.filter fun x => !decide (x.import_state = s'))
      = if s = s' then 0 else countState s t := by
  induction t with
  | nil => simp [countState]
  | cons r rs ih =>
    rw [List.filter_cons]
    by_cases hr : r.import_state = s'
    · rw [if_neg (by simp [hr]), ih]
      by_cases hs : s = s'
      · simp [hs]
      · have hrs : ¬r.import_state = s := by
          rw [hr]; exact fun hh => hs hh.symm
        rw [if_neg hs, if_neg hs, countState_cons, if_neg hrs, Nat.zero_add]
    · rw [if_pos (by simp [hr]), countState_cons, ih, countState_cons]
      by_cases hs : s = s'
      · subst hs
        simp [hr]
      · simp [hs]

/-- Counting after moving every `sFrom` row to `sTo`. -/
theorem countState_map_update (sFrom sTo : ImportState) (hne : sFrom ≠ sTo)
    (s : ImportState) (t : MetadataTable) :
    countState s (t.map fun x =>
        if x.import_state = sFrom then { x with import_state := sTo } else x)
      = if s = sFrom then 0
        else if s = sTo then countState sTo t + countState sFrom t
        else countState s t := by
  induction t with
  | nil => simp [countState]
  | cons r rs ih =>
    simp only [List.map_cons]
    by_cases hr : r.import_state = sFrom
    · rw [if_pos hr, countState_cons, ih]
      simp only [countState_cons]
      by_cases h1 : s = sFrom
      · simp [h1, hr, hne.symm]
      · by_cases h2 : s = sTo
        · simp [h2, hr, hne, hne.symm]
          omega
        · have h1' : sFrom ≠ s := fun hh => h1 hh.symm
          have h2' : sTo ≠ s := fun hh => h2 hh.symm
          simp [hr, h1, h2, h1', h2']
    · rw [if_neg hr, countState_cons, ih]
      simp only [countState_cons]
      by_cases h1 : s = sFrom
      · simp [h1, hr]
      · by_cases h2 : s = sTo
        · simp [h2, hr, hne.symm]
          omega
        · simp [h1, h2]

/-- A successful `_swap_state` found at most one row in its state. -/
theorem swapState_ok_le_one {s : ImportState} {t t' : MetadataTable}
    (h : swapState s t = .ok t') : countState s t ≤ 1 := by
  unfold swapState at h
  cases hf : t.filter fun r => decide (r.import_state = s) with
  | nil => unfold countState; rw [hf]; exact Nat.zero_le 1
  | cons a as =>
    cases as with
    | nil => unfold countState; rw [hf]; exact le_refl 1
    | cons b bs => rw [hf] at h; cases h

/-- Effect of a successful `_swap_state('Discard')` on the per-state
counts. -/
theorem swapState_discard_ok {t t' : MetadataTable}
    (h : swapState .discard t = .ok t') :
    countState .discard t' = 0 ∧
    countState .new t' = countState .new t ∧
    countState .current t' = countState .current t := by
  unfold swapState at h
  cases hf : t.filter fun r => decide (r.import_state = .discard) with
  | nil =>
    rw [hf] at h
    cases h
    have h0 : countState .discard t = 0 := by unfold countState; rw [hf]; rfl
    exact ⟨h0, rfl, rfl⟩
  | cons a as =>
    cases as with
    | nil =>
      rw [hf] at h
      simp only [if_pos rfl] at h
      cases h
      refine ⟨?_, ?_, ?_⟩ <;> rw [countState_filter_not] <;> simp
    | cons b bs => rw [hf] at h; cases h

/-- Effect of a successful `_swap_state('Current')` on the per-state
counts. -/
theorem swapState_current_ok {t t' : MetadataTable}
    (h : swapState .current t = .ok t') :
    countState .current t' = 0 ∧
    countState .new t' = countState .new t ∧
    countState .discard t' = countState .discard t + countState .current t := by
  unfold swapState at h
  cases hf : t.filter fun r => decide (r.import_state = .current) with
  | nil =>
    rw [hf] at h
    cases h
    have h0 : countState .current t = 0 := by unfold countState; rw [hf]; rfl
    exact ⟨h0, rfl, by simp [h0]⟩
  | cons a as =>
    cases as with
    | nil =>
      rw [hf] at h
      simp only [reduceCtorEq, if_neg, reduceIte] at h
      cases hany : t.any fun x => decide (x.import_state = ImportState.discard) with
      | true => rw [hany] at h; simp at h
      | false =>
        rw [hany] at h
        simp only [Bool.false_eq_true, if_false] at h
        cases h
        refine ⟨?_, ?_, ?_⟩ <;>
          rw [countState_map_update .current .discard (by simp)] <;> simp
    | cons b bs => rw [hf] at h; cases h

/-- Effect of a successful `_swap_state('New')` on the per-state
counts. -/
theorem swapState_new_ok {t t' : MetadataTable}
    (h : swapState .new t = .ok t') :
    countState .new t' = 0 ∧
    countState .current t' = countState .current t + countState .new t ∧
    countState .discard t' = countState .discard t := by
  unfold swapState at h
  cases hf : t.filter fun r => decide (r.import_state = .new) with
  | nil =>
    rw [hf] at h
    cases h
    have h0 : countState .new t = 0 := by unfold countState; rw [hf]; rfl
    exact ⟨h0, by simp [h0], rfl⟩
  | cons a as =>
    cases as with
    | nil =>
      rw [hf] at h
      simp only [reduceCtorEq, if_neg, reduceIte] at h
      cases hany : t.any fun x => decide (x.import_state = ImportState.current) with
      | true => rw [hany] at h; simp at h
      | false =>
        rw [hany] at h
        simp only [Bool.false_eq_true, if_false] at h
        cases h
        refine ⟨?_, ?_, ?_⟩ <;>
          rw [countState_map_update .new .current (by simp)] <;> simp
    | cons b bs => rw [hf] at h; cases h

/-- Reduction of `Except.bind` over a success, used to unravel
`swap_all_states`. -/
theorem except_bind_ok {α β : Type} (a : α) (f : α → Except Unit β) :
    (Except.ok a).bind f = f a := rfl

/-- C4 (counterexample): a table holding a single `'Current'` row swaps
to a single `'Discard'` row and commits (the `'Current'`-existence check
only runs when more than one row remains), so rows remain but none is
`'Current'`. -/
theorem swap_all_states_single_current_cex :
    swap_all_states [⟨"chk", ImportState.current⟩]
        = .ok [⟨"chk", ImportState.discard⟩] ∧
    ([⟨"chk", ImportState.discard⟩] : MetadataTable) ≠ [] ∧
    ∀ r ∈ ([⟨"chk", ImportState.discard⟩] : MetadataTable),
      r.import_state ≠ ImportState.current := by
  refine ⟨rfl, by simp, ?_⟩
  intro r hr
  simp only [List.mem_singleton] at hr
  rw [hr]
  decide

/-- C4 (amended): whenever `swap_all_states` commits, the resulting
table holds at most one row per `import_state`, and when **more than
one** row remains at least one of them is `'Current'`; a table left with
a single non-`'Current'` row commits regardless (see the
counterexample), and `.error` outcomes roll the transaction back. -/
theorem swap_all_states_ok_invariant {t t' : MetadataTable}
    (h : swap_all_states t = .ok t') :
    (∀ s, countState s t' ≤ 1) ∧
    (1 < t'.length → ∃ r ∈ t', r.import_state = ImportState.current) := by
  unfold swap_all_states at h
  cases h1 : swapState .discard t with
  | error e => rw [h1] at h; cases h
  | ok t1 =>
    rw [h1] at h
    simp only [except_bind_ok] at h
    cases h2 : swapState .current t1 with
    | error e => rw [h2] at h; cases h
    | ok t2 =>
      rw [h2] at h
      simp only [except_bind_ok] at h
      cases h3 : swapState .new t2 with
      | error e => rw [h3] at h; cases h
      | ok t3 =>
        rw [h3] at h
        simp only [except_bind_ok] at h
        obtain ⟨hd0, hdn, hdc⟩ := swapState_discard_ok h1
        obtain ⟨hc0, hcn, hcd⟩ := swapState_current_ok h2
        obtain ⟨hn0, hnc, hnd⟩ := swapState_new_ok h3
        have hnle : countState .new t2 ≤ 1 := swapState_ok_le_one h3
        have hcle : countState .current t1 ≤ 1 := swapState_ok_le_one h2
        have hinv : ∀ s, countState s t3 ≤ 1 := by
          intro s
          cases s with
          | new => rw [hn0]; exact Nat.zero_le 1
          | current => rw [hnc, hc0]; omega
          | discard => rw [hnd, hcd, hd0]; omega
        by_cases hl : 1 < t3.length
        · rw [if_pos hl] at h
          cases hfc : t3.filter fun r =>
              decide (r.import_state = ImportState.current) with
          | nil => rw [hfc] at h; cases h
          | cons a as =>
            cases as with
            | cons b bs => rw [hfc] at h; cases h
            | nil =>
              rw [hfc] at h
              injection h with ht
              subst ht
              have ha : a ∈ t3.filter fun r =>
                  decide (r.import_state = ImportState.current) := by
                rw [hfc]; exact List.mem_singleton_self a
              have hmem := List.mem_filter.mp ha
              refine ⟨hinv, fun _ => ⟨a, hmem.1, by simpa using hmem.2⟩⟩
        · rw [if_neg hl] at h
          injection h with ht
          subst ht
          exact ⟨hinv, fun hlen => absurd hlen hl⟩

/-- C4 (witness): a table with one `'Current'` and one `'New'` row swaps
successfully; the committed table satisfies the invariant. -/
theorem swap_all_states_ok_invariant_witness :
    (∀ s, countState s
        [⟨"a", ImportState.discard⟩, ⟨"b", ImportState.current⟩] ≤ 1) ∧
    (1 < ([⟨"a", ImportState.discard⟩, ⟨"b", ImportState.current⟩] :
        MetadataTable).length →
      ∃ r ∈ ([⟨"a", ImportState.discard⟩, ⟨"b", ImportState.current⟩] :
          MetadataTable), r.import_state = ImportState.current) :=
  swap_all_states_ok_invariant
    (t := [⟨"a", ImportState.current⟩, ⟨"b", ImportState.new⟩]) (by decide)

end Ecommerce
